import Mathlib

/-!
Shallow embedding of the jina-sdk Rust crate (src/lib.rs, src/reader.rs,
src/embeddings.rs, src/rerank.rs).

JSON values are modelled by an explicit AST; JSON text parsing itself is an
external capability of the program (serde_json), so a response body is
modelled as `Option Json`: `some j` when the body text parses as the JSON
value `j`, `none` when the body is not valid JSON.  JSON numbers that occur
in the claims are integers, so `Json.num` carries an `Int`.

Rust panics are modelled explicitly by the `Outcome` type: a Rust function
that can panic returns `Outcome.panic msg` where Rust would abort.
-/

/-- JSON value AST. Models the serde_json data model restricted to the
shapes used by this crate (numbers in the claims are integers). -/
inductive Json : Type
  | null : Json
  | bool (b : Bool) : Json
  | num (n : Int) : Json
  | str (s : String) : Json
  | arr (elems : List Json) : Json
  | obj (fields : List (String × Json)) : Json

/-- Result of running Rust code that may return normally (`ok`), return an
error (`err`, Rust `Err`), or abort the process (`panic`). -/
inductive Outcome (ε : Type) (α : Type) : Type
  | ok (a : α) : Outcome ε α
  | err (e : ε) : Outcome ε α
  | panic (msg : String) : Outcome ε α

/-- Field lookup in a JSON object, as serde does when deserializing a
struct: the first field with the given name is used. -/
def lookupField : List (String × Json) → String → Option Json
  | [], _ => none
  | p :: ps, n => if p.1 = n then some p.2 else lookupField ps n

/-- Element-wise decoding of a JSON array, as serde does when deserializing
a `Vec<T>`: every element must decode, otherwise the whole list fails. -/
def decodeList (dec : Json → Option α) : List Json → Option (List α)
  | [] => some []
  | j :: js =>
    match dec j with
    | none => none
    | some a => (decodeList dec js).map (fun as => a :: as)

/-- Models the `http` crate's header value check used by
`HeaderValue::from_str` / `"...".parse::<HeaderValue>()`: a byte is legal
iff it is `\t` (9) or in `32..=255` excluding 127.  A character below 128
is its own byte; a character at or above 128 is encoded by UTF-8 bytes that
are all at least 128 and hence legal, so it is always accepted. -/
def isValidHVChar (c : Char) : Bool :=
  if c.toNat < 128 then
    (32 ≤ c.toNat && c.toNat ≠ 127) || c.toNat == 9
  else
    true

/-- A string is a legal HTTP header value iff every character is legal.
Models `http::HeaderValue::from_str` succeeding. -/
def isValidHeaderValue (s : String) : Bool :=
  s.data.all isValidHVChar

/-- Models `HeaderValue::from_str(s)` / `s.parse::<HeaderValue>()`:
`some s` on a legal header value, `none` (Rust `Err`) otherwise. -/
def mkHeaderValue (s : String) : Option String :=
  if isValidHeaderValue s then some s else none

/-- A header map entry: (name, value). All header names inserted by this
crate are pairwise distinct, so `HeaderMap::insert` never replaces an
existing entry and is modelled by list append. -/
abbrev Header := String × String

/-- Modelled from the spec: the vendor error payload type lives in the
crate's `error` module, whose source file is absent from src/. Per the
spec it is "the best-effort-decoded vendor error body", "opaque here
beyond present or absent", so it is modelled as a wrapper around the
decoded JSON body. -/
structure HttpErrorPayload : Type where
  body : Json

/-- Modelled from the spec: best-effort decoding of a JSON body into the
vendor error payload. The payload shape is opaque, so every JSON value
decodes; a body that is not valid JSON (`none` upstream) yields no
payload. -/
def HttpErrorPayload.fromJson (j : Json) : Option HttpErrorPayload :=
  some (HttpErrorPayload.mk j)

/-- Modelled from the spec: `HttpError` from the crate's absent `error`
module: "numeric HTTP status plus an optional decoded vendor error
payload". -/
structure HttpError : Type where
  status : Nat
  payload : Option HttpErrorPayload

/-- Modelled from the spec: the error taxonomy of the crate's absent
`error` module (spec section 7): TransportError, HttpError,
DeserializationError, ConstructionError. -/
inductive JinaError : Type
  | TransportError (msg : String) : JinaError
  | HttpError (e : HttpError) : JinaError
  | DeserializationError (msg : String) : JinaError
  | ConstructionError (msg : String) : JinaError

/-- Models `http::StatusCode::is_success`: status in `200..=299`. -/
def isSuccessStatus (status : Nat) : Bool :=
  200 ≤ status && status < 300

/-- The client, src/lib.rs `Jina`: transport handle (opaque), api key,
base url. -/
structure Jina : Type where
  http_client : Unit
  api_key : String
  base_url : String

/-- src/lib.rs `JinaBuilder`. -/
structure JinaBuilder : Type where
  http_client : Option Unit
  api_key : Option String
  base_url : Option String

/-- src/lib.rs `BASE_URL`. -/
def BASE_URL : String := "https://api.jina.ai"

/-- src/lib.rs `JinaBuilder::build`. The process environment is passed
explicitly: `env name` models `std::env::var(name).ok()`. The function is
pure in the embedding apart from that read; it performs no network
action. -/
def JinaBuilder.build (b : JinaBuilder) (env : String → Option String) : Except String Jina :=
  match b.http_client with
  | none => Except.error "you must provide an HttpClient implementation"
  | some hc =>
    match b.api_key.orElse (fun _ => env "EXA_API_KEY") with
    | none => Except.error "API key is required. Set it explicitly or use the EXA_API_KEY environment variable"
    | some key =>
      Except.ok { http_client := hc, api_key := key, base_url := b.base_url.getD BASE_URL }

/-- src/lib.rs `Jina::default_headers`: inserts
`Authorization: Bearer <api_key>` and `Content-Type: application/json`;
each `HeaderValue` construction uses `.expect(...)`, which panics (rather
than returning an error) when the value is not legal header content. -/
def Jina.default_headers (c : Jina) : Outcome String (List Header) :=
  match mkHeaderValue ("Bearer " ++ c.api_key) with
  | none => Outcome.panic "couldn't create header value"
  | some auth =>
    match mkHeaderValue "application/json" with
    | none => Outcome.panic "couldn't create header value"
    | some ct => Outcome.ok [("Authorization", auth), ("Content-Type", ct)]

/-- src/lib.rs `Jina::handle_response`, lines 92-108, parameterized by the
serde decoder of the target response type `D`. The body is `some j` when
the body text is valid JSON `j`, `none` otherwise. On a non-success
status the body is best-effort decoded into the vendor error payload
(`.ok()` discards the parse failure) and an `HttpError` is returned. On a
success status the body is deserialized into `D`;
`serde_json::from_str(&response).unwrap()` panics when that fails. -/
def Jina.handle_response {D : Type} (decode : Json → Option D) (status : Nat) (body : Option Json) : Outcome JinaError D :=
  if isSuccessStatus status = false then
    Outcome.err (JinaError.HttpError { status := status, payload := body.bind HttpErrorPayload.fromJson })
  else
    match body.bind decode with
    | some d => Outcome.ok d
    | none => Outcome.panic "called Option::unwrap on a None value"

/-- src/lib.rs `Usage`. The fields are `i32` in the source; they are
modelled as `Int` with the 32-bit range enforced at decode time. -/
structure Usage : Type where
  prompt_tokens : Int
  total_tokens : Int

/-- serde deserialization of an `i32` field from a JSON value: the number
must be an integer within the signed 32-bit range; no sign restriction
beyond that. -/
def decodeI32 (j : Json) : Option Int :=
  match j with
  | Json.num n => if -(2 ^ 31) ≤ n ∧ n < 2 ^ 31 then some n else none
  | _ => none

/-- serde deserialization of `Usage` (derived `Deserialize`): a JSON
object with integer fields `prompt_tokens` and `total_tokens`. -/
def Usage.fromJson (j : Json) : Option Usage :=
  match j with
  | Json.obj fs =>
    match lookupField fs "prompt_tokens", lookupField fs "total_tokens" with
    | some pj, some tj =>
      match decodeI32 pj, decodeI32 tj with
      | some p, some t => some { prompt_tokens := p, total_tokens := t }
      | _, _ => none
    | _, _ => none
  | _ => none

/-- src/reader.rs `ReaderReturnFormat`, with
`#[serde(rename_all = "snake_case")]`. -/
inductive ReaderReturnFormat : Type
  | Default : ReaderReturnFormat
  | Markdown : ReaderReturnFormat
  | Html : ReaderReturnFormat
  | Text : ReaderReturnFormat
  | Screenshot : ReaderReturnFormat
  | Pageshot : ReaderReturnFormat

/-- src/reader.rs `ReaderReturnFormat::as_str`. -/
def ReaderReturnFormat.asStr : ReaderReturnFormat → String
  | ReaderReturnFormat.Default => "default"
  | ReaderReturnFormat.Markdown => "markdown"
  | ReaderReturnFormat.Html => "html"
  | ReaderReturnFormat.Text => "text"
  | ReaderReturnFormat.Screenshot => "screenshot"
  | ReaderReturnFormat.Pageshot => "pageshot"

/-- src/reader.rs `impl TryFrom<String> for ReaderReturnFormat`, lines
55-69: lowercase the input and match it against the six names.  The
lowercasing step `value.to_lowercase()` is `str::to_lowercase`, an
external capability of the Rust standard library applying the full
Unicode case-mapping table (which maps, e.g., U+212A KELVIN SIGN to
`k`); that table is not reproduced here, so — exactly as the serde
decoders are passed to `Jina.handle_response` — the lowercasing function
is passed as the parameter `low`.  The six names are lowercase ASCII and
hence fixed points of Unicode lowercasing; theorems assume of `low` only
that fixed-point property. -/
def ReaderReturnFormat.tryFrom (low : String → String) (value : String) : Except String ReaderReturnFormat :=
  if low value = "default" then Except.ok ReaderReturnFormat.Default
  else if low value = "markdown" then Except.ok ReaderReturnFormat.Markdown
  else if low value = "html" then Except.ok ReaderReturnFormat.Html
  else if low value = "text" then Except.ok ReaderReturnFormat.Text
  else if low value = "screenshot" then Except.ok ReaderReturnFormat.Screenshot
  else if low value = "pageshot" then Except.ok ReaderReturnFormat.Pageshot
  else Except.error ("Invalid ReaderReturnFormat: " ++ value)

/-- src/reader.rs `ReaderRequest` (field order as in the source).
`timeout` is `u16` in the source, modelled as `Nat`; only its decimal
rendering reaches the claims. -/
structure ReaderRequest : Type where
  url : String
  return_format : Option ReaderReturnFormat
  no_cache : Option Bool
  wait_for_selector : Option String
  target_selector : Option String
  timeout : Option Nat
  proxy_url : Option String
  locale : Option String

/-- Decimal digit character for `d % 10`. -/
def digitChar (d : Nat) : Char :=
  match d % 10 with
  | 0 => '0'
  | 1 => '1'
  | 2 => '2'
  | 3 => '3'
  | 4 => '4'
  | 5 => '5'
  | 6 => '6'
  | 7 => '7'
  | 8 => '8'
  | _ => '9'

/-- Decimal digits of a natural number, most significant first. -/
def natChars (n : Nat) : List Char :=
  if _h : n < 10 then [digitChar n]
  else natChars (n / 10) ++ [digitChar (n % 10)]
decreasing_by exact Nat.div_lt_self (by omega) (by omega)

/-- Models Rust `u16::to_string`: decimal rendering. -/
def natStr (n : Nat) : String :=
  String.mk (natChars n)

/-- Models Rust `bool::to_string`. -/
def boolStr (b : Bool) : String :=
  match b with
  | true => "true"
  | false => "false"

/-- One optional-header insertion step of src/reader.rs `Jina::reader`:
`if let Some(v) = field { headers.insert(name, v.parse()?); }` — when the
field is set, the value must be legal header content, otherwise the `?`
returns a request-construction error. -/
def addOpt (headers : List Header) (name : String) : Option String → Except String (List Header)
  | none => Except.ok headers
  | some v =>
    if isValidHeaderValue v then Except.ok (headers ++ [(name, v)])
    else Except.error "failed to parse header value"

/-- The optional-header chain and body construction of src/reader.rs
`Jina::reader`, lines 89-126, in source order. The JSON body is
`json!({"url": request.url})`: the `url` field only. -/
def reader_build (request : ReaderRequest) (headers0 : List Header) : Except String (List Header × Json) := do
  let headers1 ← addOpt headers0 "X-Return-Format" (request.return_format.map ReaderReturnFormat.asStr)
  let headers2 ← addOpt headers1 "X-Target-Selector" request.target_selector
  let headers3 ← addOpt headers2 "X-Locale" request.locale
  let headers4 ← addOpt headers3 "X-Proxy-Url" request.proxy_url
  let headers5 ← addOpt headers4 "X-Timeout" (request.timeout.map natStr)
  let headers6 ← addOpt headers5 "X-No-Cache" (request.no_cache.map boolStr)
  let headers7 ← addOpt headers6 "X-Wait-For-Selector" request.wait_for_selector
  pure (headers7, Json.obj [("url", Json.str request.url)])

/-- src/reader.rs `Jina::reader`, request-construction phase: default
headers (which may panic, see `Jina.default_headers`), the `Accept`
header, the optional `X-*` headers, and the JSON body, up to the point
the request is handed to the transport. `ok (headers, body)` means the
outbound request is sent with exactly these headers and this body. -/
def Jina.reader (c : Jina) (request : ReaderRequest) : Outcome String (List Header × Json) :=
  match c.default_headers with
  | Outcome.panic m => Outcome.panic m
  | Outcome.err e => Outcome.err e
  | Outcome.ok headers =>
    match mkHeaderValue "application/json" with
    | none => Outcome.err "failed to parse header value"
    | some accept =>
      match reader_build request (headers ++ [("Accept", accept)]) with
      | Except.error e => Outcome.err e
      | Except.ok out => Outcome.ok out

/-- src/embeddings.rs `TextDoc`. -/
structure TextDoc : Type where
  text : String

/-- src/embeddings.rs `ImageDoc`. -/
structure ImageDoc : Type where
  image : String

/-- src/embeddings.rs `Doc`, untagged. -/
inductive Doc : Type
  | Text (d : TextDoc) : Doc
  | Image (d : ImageDoc) : Doc

/-- src/embeddings.rs `EmbeddingsInput`, untagged: variant declaration
order (used by serde untagged deserialization) is StringArray, String,
DocArray, Doc. -/
inductive EmbeddingsInput : Type
  | StringArray (xs : List String) : EmbeddingsInput
  | String (s : String) : EmbeddingsInput
  | DocArray (ds : List Doc) : EmbeddingsInput
  | Doc (d : Doc) : EmbeddingsInput

/-- serde serialization of `TextDoc`. -/
def TextDoc.toJson (d : TextDoc) : Json :=
  Json.obj [("text", Json.str d.text)]

/-- serde serialization of `ImageDoc`. -/
def ImageDoc.toJson (d : ImageDoc) : Json :=
  Json.obj [("image", Json.str d.image)]

/-- serde serialization of the untagged `Doc`: the active variant's data
is serialized directly, no discriminant tag is written. -/
def Doc.toJson : Doc → Json
  | Doc.Text d => d.toJson
  | Doc.Image d => d.toJson

/-- serde serialization of the untagged `EmbeddingsInput`: the active
variant's data is serialized directly (string, array of strings, array of
documents, or document object), no discriminant tag is written. -/
def EmbeddingsInput.toJson : EmbeddingsInput → Json
  | EmbeddingsInput.StringArray xs => Json.arr (xs.map Json.str)
  | EmbeddingsInput.String s => Json.str s
  | EmbeddingsInput.DocArray ds => Json.arr (ds.map Doc.toJson)
  | EmbeddingsInput.Doc d => d.toJson

/-- serde deserialization of a JSON string. -/
def decodeString (j : Json) : Option String :=
  match j with
  | Json.str s => some s
  | _ => none

/-- serde deserialization of `TextDoc`: an object whose `text` field is a
string (unknown extra fields are ignored, as serde does by default). -/
def TextDoc.fromJson (j : Json) : Option TextDoc :=
  match j with
  | Json.obj fs =>
    match lookupField fs "text" with
    | some (Json.str s) => some (TextDoc.mk s)
    | _ => none
  | _ => none

/-- serde deserialization of `ImageDoc`. -/
def ImageDoc.fromJson (j : Json) : Option ImageDoc :=
  match j with
  | Json.obj fs =>
    match lookupField fs "image" with
    | some (Json.str s) => some (ImageDoc.mk s)
    | _ => none
  | _ => none

/-- serde untagged deserialization of `Doc`: try the variants in
declaration order (Text, then Image). -/
def Doc.fromJson (j : Json) : Option Doc :=
  match TextDoc.fromJson j with
  | some d => some (Doc.Text d)
  | none => (ImageDoc.fromJson j).map Doc.Image

/-- serde deserialization of `Vec<String>`. -/
def decodeStringList (j : Json) : Option (List String) :=
  match j with
  | Json.arr xs => decodeList decodeString xs
  | _ => none

/-- serde deserialization of `Vec<Doc>`. -/
def decodeDocList (j : Json) : Option (List Doc) :=
  match j with
  | Json.arr xs => decodeList Doc.fromJson xs
  | _ => none

/-- serde untagged deserialization of `EmbeddingsInput` — equivalently,
decoding by the vendor's documented structural shapes: try the variants
in declaration order (array of strings, string, array of documents,
document). -/
def EmbeddingsInput.fromJson (j : Json) : Option EmbeddingsInput :=
  match decodeStringList j with
  | some xs => some (EmbeddingsInput.StringArray xs)
  | none =>
    match decodeString j with
    | some s => some (EmbeddingsInput.String s)
    | none =>
      match decodeDocList j with
      | some ds => some (EmbeddingsInput.DocArray ds)
      | none => (Doc.fromJson j).map EmbeddingsInput.Doc

/-- src/rerank.rs `RerankerModel` with its serde renames. -/
inductive RerankerModel : Type
  | RerankerV2BaseMultilingual : RerankerModel
  | RerankerV1BaseEn : RerankerModel
  | RerankerV1TinyEn : RerankerModel
  | RerankerV1TurboEn : RerankerModel
  | ColbertV1En : RerankerModel

/-- The serde rename strings of `RerankerModel`. -/
def RerankerModel.asStr : RerankerModel → String
  | RerankerModel.RerankerV2BaseMultilingual => "jina-reranker-v2-base-multilingual"
  | RerankerModel.RerankerV1BaseEn => "jina-reranker-v1-base-en"
  | RerankerModel.RerankerV1TinyEn => "jina-reranker-v1-tiny-en"
  | RerankerModel.RerankerV1TurboEn => "jina-reranker-v1-turbo-en"
  | RerankerModel.ColbertV1En => "jina-colbert-v1-en"

/-- src/rerank.rs `QueryType`, untagged. -/
inductive QueryType : Type
  | String (s : String) : QueryType
  | TextDoc (d : TextDoc) : QueryType

/-- src/rerank.rs `DocumentType`, untagged. -/
inductive DocumentType : Type
  | Strings (xs : List String) : DocumentType
  | TextDocs (ds : List TextDoc) : DocumentType

/-- serde serialization of the untagged `QueryType`. -/
def QueryType.toJson : QueryType → Json
  | QueryType.String s => Json.str s
  | QueryType.TextDoc d => d.toJson

/-- serde serialization of the untagged `DocumentType`. -/
def DocumentType.toJson : DocumentType → Json
  | DocumentType.Strings xs => Json.arr (xs.map Json.str)
  | DocumentType.TextDocs ds => Json.arr (ds.map TextDoc.toJson)

/-- src/rerank.rs `RerankRequest` (field order as in the source).
`query` and `documents` carry `#[serde(flatten)]`; `top_n` and
`return_documents` carry `#[serde(skip_serializing_if = "Option::is_none")]`.
`top_n` is `usize` in the source, modelled as `Nat`. -/
structure RerankRequest : Type where
  model : RerankerModel
  query : QueryType
  documents : DocumentType
  top_n : Option Nat
  return_documents : Option Bool

/-- Models serde's `FlatMapSerializer`, used for a `#[serde(flatten)]`
field: a value serialized into a flattened position contributes its
key-value pairs when it serializes as a JSON object, and the whole
serialization fails with "can only flatten structs and maps" when it
serializes as anything else (string, sequence, number, ...). -/
def flattenJson : Json → Except String (List (String × Json))
  | Json.obj fs => Except.ok fs
  | _ => Except.error "can only flatten structs and maps"

/-- A field serialized under `#[serde(skip_serializing_if = "Option::is_none")]`:
no entry at all when the option is `none`. -/
def optJsonField (name : String) : Option Json → List (String × Json)
  | none => []
  | some j => [(name, j)]

/-- serde serialization of `RerankRequest` (derived `Serialize`): the
struct serializes as a map; `model` is a plain entry; `query` and
`documents` are flattened (see `flattenJson`); `top_n` and
`return_documents` are skipped when `none`. -/
def RerankRequest.toJson (r : RerankRequest) : Except String Json := do
  let qf ← flattenJson r.query.toJson
  let df ← flattenJson r.documents.toJson
  pure (Json.obj (("model", Json.str r.model.asStr) :: qf ++ df
    ++ optJsonField "top_n" (r.top_n.map (fun n => Json.num (Int.ofNat n)))
    ++ optJsonField "return_documents" (r.return_documents.map Json.bool)))

/-- The header contribution of one optional reader field: nothing when the
field is unset, one header when it is set. -/
def optHdr (name : String) : Option String → List Header
  | none => []
  | some v => [(name, v)]

/-- The optional `X-*` headers contributed by a `ReaderRequest`, in the
insertion order of src/reader.rs `Jina::reader`. -/
def readerOptHeaders (r : ReaderRequest) : List Header :=
  optHdr "X-Return-Format" (r.return_format.map ReaderReturnFormat.asStr) ++
  optHdr "X-Target-Selector" r.target_selector ++
  optHdr "X-Locale" r.locale ++
  optHdr "X-Proxy-Url" r.proxy_url ++
  optHdr "X-Timeout" (r.timeout.map natStr) ++
  optHdr "X-No-Cache" (r.no_cache.map boolStr) ++
  optHdr "X-Wait-For-Selector" r.wait_for_selector

/-- A header with the given name occurs in the header list. -/
def hasHdr (headers : List Header) (name : String) : Prop :=
  ∃ v, (name, v) ∈ headers

/-- Every value carried by an optional string field is legal header
content. -/
def optValid (o : Option String) : Prop :=
  ∀ s, o = some s → isValidHeaderValue s = true

/-- A sample reader request with four optional fields set, used by the
witness of the reader header/body theorem. -/
def readerSample : ReaderRequest :=
  { url := "https://u", return_format := some ReaderReturnFormat.Markdown,
    no_cache := some true, wait_for_selector := some "#main",
    target_selector := some "#t", timeout := none, proxy_url := none,
    locale := none }

/-- The headers `Jina::reader` produces for `readerSample` with api key
"k". -/
def readerSampleHeaders : List Header :=
  [("Authorization", "Bearer k"), ("Content-Type", "application/json"),
   ("Accept", "application/json"), ("X-Return-Format", "markdown"),
   ("X-Target-Selector", "#t"), ("X-No-Cache", "true"),
   ("X-Wait-For-Selector", "#main")]

/-! Helper lemmas. -/

/-- `String.append` distributes over `data`. -/
theorem data_append (a b : String) : (a ++ b).data = a.data ++ b.data := by
  cases a
  cases b
  rfl

/-- Prefixing a string with "Bearer " does not change header value
legality: every character of "Bearer " is legal. -/
theorem bearer_valid (s : String) : isValidHeaderValue ("Bearer " ++ s) = isValidHeaderValue s := by
  unfold isValidHeaderValue
  rw [data_append, List.all_append]
  rw [show "Bearer ".data.all isValidHVChar = true from by decide]
  simp

/-- Successful `Except` bind decomposes. -/
theorem bind_ok {ε α β : Type} {a : Except ε α} {f : α → Except ε β} {c : β}
    (h : a >>= f = Except.ok c) : ∃ b, a = Except.ok b ∧ f b = Except.ok c := by
  cases a with
  | error e => simp [Bind.bind, Except.bind] at h
  | ok b => exact ⟨b, rfl, by simpa [Bind.bind, Except.bind] using h⟩

/-- Bind on an `ok` value reduces. -/
theorem ok_bind {ε α β : Type} (b : α) (f : α → Except ε β) :
    (Except.ok b : Except ε α) >>= f = f b := rfl

/-- `pure` in the `Except` monad is `ok`. -/
theorem pure_eq_ok {ε α : Type} (a : α) : (pure a : Except ε α) = Except.ok a := rfl

/-- A successful `addOpt` appends exactly the field's header contribution. -/
theorem addOpt_shape {hs : List Header} {n : String} {o : Option String} {hs2 : List Header}
    (h : addOpt hs n o = Except.ok hs2) : hs2 = hs ++ optHdr n o := by
  cases o with
  | none =>
    simp only [addOpt] at h
    cases h
    simp [optHdr]
  | some v =>
    simp only [addOpt] at h
    split at h
    · cases h
      rfl
    · exact absurd h (by simp)

/-- A successful `addOpt` on a set field implies the value was legal. -/
theorem addOpt_ok_valid {hs : List Header} {n v : String} {hs2 : List Header}
    (h : addOpt hs n (some v) = Except.ok hs2) : isValidHeaderValue v = true := by
  simp only [addOpt] at h
  split at h
  · assumption
  · exact absurd h (by simp)

/-- A successful `addOpt` implies the field's value, if set, was legal. -/
theorem addOpt_ok_optValid {hs : List Header} {n : String} {o : Option String} {hs2 : List Header}
    (h : addOpt hs n o = Except.ok hs2) : optValid o := by
  intro s hso
  subst hso
  exact addOpt_ok_valid h

/-- `addOpt` succeeds on a field whose value, if set, is legal. -/
theorem addOpt_of_valid {o : Option String} (h : optValid o) (hs : List Header) (n : String) :
    addOpt hs n o = Except.ok (hs ++ optHdr n o) := by
  cases o with
  | none => simp [addOpt, optHdr]
  | some v => simp [addOpt, optHdr, h v rfl]

/-- Mapping a header-safe rendering over an option yields a valid optional
value. -/
theorem optValid_map {α : Type} (f : α → String) (hf : ∀ x, isValidHeaderValue (f x) = true)
    (o : Option α) : optValid (o.map f) := by
  intro s hs
  cases o with
  | none => simp at hs
  | some x =>
    simp only [Option.map] at hs
    cases hs
    exact hf x

/-- Every `ReaderReturnFormat` name is legal header content. -/
theorem asStr_valid (v : ReaderReturnFormat) : isValidHeaderValue v.asStr = true := by
  cases v <;> decide

/-- Decimal digit characters are legal header content. -/
theorem digitChar_valid (d : Nat) : isValidHVChar (digitChar d) = true := by
  unfold digitChar
  split <;> decide

/-- All characters of a decimal rendering are legal header content. -/
theorem natChars_valid (n : Nat) : (natChars n).all isValidHVChar = true := by
  induction n using Nat.strong_induction_on with
  | _ n ih =>
    unfold natChars
    split
    · simp [digitChar_valid]
    · rw [List.all_append]
      rw [ih (n / 10) (Nat.div_lt_self (by omega) (by omega))]
      simp [digitChar_valid]

/-- The decimal rendering of a natural number is legal header content. -/
theorem natStr_valid (n : Nat) : isValidHeaderValue (natStr n) = true :=
  natChars_valid n

/-- The rendering of a boolean is legal header content. -/
theorem boolStr_valid (b : Bool) : isValidHeaderValue (boolStr b) = true := by
  cases b <;> decide

/-- `hasHdr` over nil. -/
theorem hasHdr_nil (n : String) : hasHdr [] n ↔ False := by
  simp [hasHdr]

/-- `hasHdr` over cons. -/
theorem hasHdr_cons (m w n : String) (hs : List Header) :
    hasHdr ((m, w) :: hs) n ↔ n = m ∨ hasHdr hs n := by
  simp [hasHdr, List.mem_cons, Prod.mk.injEq, exists_or]

/-- `hasHdr` over append. -/
theorem hasHdr_append (xs ys : List Header) (n : String) :
    hasHdr (xs ++ ys) n ↔ hasHdr xs n ∨ hasHdr ys n := by
  simp [hasHdr, List.mem_append, exists_or]

/-- An optional field's own header name occurs iff the field is set. -/
theorem hasHdr_optHdr_self (n : String) (o : Option String) :
    hasHdr (optHdr n o) n ↔ o.isSome = true := by
  cases o <;> simp [hasHdr, optHdr]

/-- An optional field contributes no header under a different name. -/
theorem hasHdr_optHdr_ne {n m : String} (hne : n ≠ m) (o : Option String) :
    hasHdr (optHdr m o) n ↔ False := by
  cases o <;> simp [hasHdr, optHdr, hne]

/-- `mkHeaderValue` can only return the string it was given. -/
theorem mkHeaderValue_some_inv {s v : String} (h : mkHeaderValue s = some v) : v = s := by
  unfold mkHeaderValue at h
  split at h
  · cases h
    rfl
  · exact absurd h (by simp)

/-- With a header-legal api key, `default_headers` returns exactly the
Authorization and Content-Type headers. -/
theorem default_headers_of_valid (c : Jina) (h : isValidHeaderValue c.api_key = true) :
    c.default_headers = Outcome.ok
      [("Authorization", "Bearer " ++ c.api_key), ("Content-Type", "application/json")] := by
  unfold Jina.default_headers
  rw [show mkHeaderValue ("Bearer " ++ c.api_key) = some ("Bearer " ++ c.api_key) from by
    unfold mkHeaderValue
    rw [bearer_valid, h]
    rfl]
  rfl

/-- If `default_headers` returns normally, it returned exactly the
Authorization and Content-Type headers. -/
theorem default_headers_ok_inv (c : Jina) (hs : List Header)
    (h : c.default_headers = Outcome.ok hs) :
    hs = [("Authorization", "Bearer " ++ c.api_key), ("Content-Type", "application/json")] := by
  unfold Jina.default_headers at h
  cases hm : mkHeaderValue ("Bearer " ++ c.api_key) with
  | none =>
    rw [hm] at h
    exact Outcome.noConfusion h
  | some a =>
    rw [hm] at h
    have ha := mkHeaderValue_some_inv hm
    subst ha
    cases h
    rfl

/-- With legal values on every set free-form field, `reader_build`
succeeds and appends exactly the optional headers, with the url-only
body. -/
theorem reader_build_eq_ok (r : ReaderRequest) (hs0 : List Header)
    (h1 : optValid r.target_selector) (h2 : optValid r.locale)
    (h3 : optValid r.proxy_url) (h4 : optValid r.wait_for_selector) :
    reader_build r hs0 =
      Except.ok (hs0 ++ readerOptHeaders r, Json.obj [("url", Json.str r.url)]) := by
  simp only [reader_build,
    addOpt_of_valid (optValid_map ReaderReturnFormat.asStr asStr_valid r.return_format),
    addOpt_of_valid h1, addOpt_of_valid h2, addOpt_of_valid h3,
    addOpt_of_valid (optValid_map natStr natStr_valid r.timeout),
    addOpt_of_valid (optValid_map boolStr boolStr_valid r.no_cache),
    addOpt_of_valid h4, ok_bind, pure_eq_ok]
  simp [readerOptHeaders, List.append_assoc]

/-- If `reader_build` returns normally, the result is the base headers
followed by exactly the optional headers, with the url-only body. -/
theorem reader_build_shape (r : ReaderRequest) (hs0 : List Header)
    (out : List Header × Json) (h : reader_build r hs0 = Except.ok out) :
    out = (hs0 ++ readerOptHeaders r, Json.obj [("url", Json.str r.url)]) := by
  simp only [reader_build] at h
  obtain ⟨b1, e1, h⟩ := bind_ok h
  obtain ⟨b2, e2, h⟩ := bind_ok h
  obtain ⟨b3, e3, h⟩ := bind_ok h
  obtain ⟨b4, e4, h⟩ := bind_ok h
  obtain ⟨b5, e5, h⟩ := bind_ok h
  obtain ⟨b6, e6, h⟩ := bind_ok h
  obtain ⟨b7, e7, h⟩ := bind_ok h
  have s1 := addOpt_shape e1
  have s2 := addOpt_shape e2
  have s3 := addOpt_shape e3
  have s4 := addOpt_shape e4
  have s5 := addOpt_shape e5
  have s6 := addOpt_shape e6
  have s7 := addOpt_shape e7
  subst s1 s2 s3 s4 s5 s6 s7
  rw [pure_eq_ok] at h
  cases h
  simp [readerOptHeaders, List.append_assoc]

/-- If `reader_build` returns normally, every set free-form field carried
a legal header value. -/
theorem reader_build_ok_valids (r : ReaderRequest) (hs0 : List Header)
    (out : List Header × Json) (h : reader_build r hs0 = Except.ok out) :
    optValid r.target_selector ∧ optValid r.locale ∧ optValid r.proxy_url ∧
      optValid r.wait_for_selector := by
  simp only [reader_build] at h
  obtain ⟨b1, e1, h⟩ := bind_ok h
  obtain ⟨b2, e2, h⟩ := bind_ok h
  obtain ⟨b3, e3, h⟩ := bind_ok h
  obtain ⟨b4, e4, h⟩ := bind_ok h
  obtain ⟨b5, e5, h⟩ := bind_ok h
  obtain ⟨b6, e6, h⟩ := bind_ok h
  obtain ⟨b7, e7, h⟩ := bind_ok h
  exact ⟨addOpt_ok_optValid e2, addOpt_ok_optValid e3, addOpt_ok_optValid e4,
    addOpt_ok_optValid e7⟩

/-- If `Jina::reader` sends a request, the headers are the three base
headers followed by exactly the optional headers, and the body holds only
the url. -/
theorem reader_ok_inv (c : Jina) (r : ReaderRequest) (out : List Header × Json)
    (h : c.reader r = Outcome.ok out) :
    out = ([("Authorization", "Bearer " ++ c.api_key), ("Content-Type", "application/json"),
      ("Accept", "application/json")] ++ readerOptHeaders r,
      Json.obj [("url", Json.str r.url)]) := by
  unfold Jina.reader at h
  cases hd : c.default_headers with
  | panic m =>
    rw [hd] at h
    exact Outcome.noConfusion h
  | err e =>
    rw [hd] at h
    exact Outcome.noConfusion h
  | ok hs0 =>
    simp only [hd] at h
    have hshape := default_headers_ok_inv c hs0 hd
    subst hshape
    simp only [show mkHeaderValue "application/json" = some "application/json" from rfl] at h
    cases hb : reader_build r
        ([("Authorization", "Bearer " ++ c.api_key), ("Content-Type", "application/json")] ++
          [("Accept", "application/json")]) with
    | error e =>
      simp only [hb] at h
      exact Outcome.noConfusion h
    | ok o2 =>
      simp only [hb] at h
      cases h
      have := reader_build_shape r _ _ hb
      simpa using this

/-- If `Jina::reader` sends a request, `reader_build` succeeded on some
base header list. -/
theorem reader_ok_build_ok (c : Jina) (r : ReaderRequest) (out : List Header × Json)
    (h : c.reader r = Outcome.ok out) :
    ∃ hs0, reader_build r hs0 = Except.ok out := by
  unfold Jina.reader at h
  cases hd : c.default_headers with
  | panic m =>
    rw [hd] at h
    exact Outcome.noConfusion h
  | err e =>
    rw [hd] at h
    exact Outcome.noConfusion h
  | ok hs0 =>
    simp only [hd] at h
    simp only [show mkHeaderValue "application/json" = some "application/json" from rfl] at h
    cases hb : reader_build r (hs0 ++ [("Accept", "application/json")]) with
    | error e =>
      simp only [hb] at h
      exact Outcome.noConfusion h
    | ok o2 =>
      simp only [hb] at h
      cases h
      exact ⟨_, hb⟩

/-- A per-element round trip lifts to lists. -/
theorem decodeList_roundtrip {α : Type} (enc : α → Json) (dec : Json → Option α)
    (h : ∀ x, dec (enc x) = some x) (xs : List α) :
    decodeList dec (xs.map enc) = some xs := by
  induction xs with
  | nil => rfl
  | cons x xs ih => simp [List.map, decodeList, h, ih]

/-- The untagged `Doc` round-trips through its serde encoding. -/
theorem doc_roundtrip (d : Doc) : Doc.fromJson (Doc.toJson d) = some d := by
  cases d with
  | Text t => rfl
  | Image i => rfl

/-- A serialized document is never a JSON string. -/
theorem decodeString_doc (d : Doc) : decodeString (Doc.toJson d) = none := by
  cases d <;> rfl

/-! Claim theorems. -/

/-- C1: on a success (2xx) status whose body does not deserialize as the
expected response shape, `handle_response` does NOT return an error
value: it panics (models `serde_json::from_str(&response).unwrap()`),
aborting the program. This refutes the claimed behaviour and documents
the code bug. -/
theorem handle_response_2xx_malformed_panics {D : Type} (decode : Json → Option D)
    (status : Nat) (body : Option Json) (h1 : isSuccessStatus status = true)
    (h2 : body.bind decode = none) :
    Jina.handle_response decode status body = Outcome.panic "called Option::unwrap on a None value" := by
  simp [Jina.handle_response, h1, h2]

/-- Witness for C1: a 200 response whose body is the JSON string "oops",
which does not decode as `Usage`, makes `handle_response` panic. -/
theorem handle_response_2xx_malformed_panics_witness :
    Jina.handle_response Usage.fromJson 200 (some (Json.str "oops")) =
      Outcome.panic "called Option::unwrap on a None value" :=
  handle_response_2xx_malformed_panics Usage.fromJson 200 (some (Json.str "oops"))
    (by decide) rfl

/-- C2: on every non-success status, `handle_response` returns an
`HttpError` carrying that numeric status; the payload is the best-effort
decoded body, present exactly when the body is decodable JSON; a
non-JSON body never changes the kind of failure. -/
theorem handle_response_non_2xx_http_error {D : Type} (decode : Json → Option D)
    (status : Nat) (body : Option Json) (h : isSuccessStatus status = false) :
    Jina.handle_response decode status body =
      Outcome.err (JinaError.HttpError
        { status := status, payload := body.bind HttpErrorPayload.fromJson }) ∧
    (body.bind HttpErrorPayload.fromJson).isSome = body.isSome := by
  constructor
  · simp [Jina.handle_response, h]
  · cases body <;> rfl

/-- Witness for C2: a 429 response with a JSON error body yields an
`HttpError` with status 429 and a present payload; a 502 response with a
non-JSON body yields an `HttpError` with status 502 and no payload. -/
theorem handle_response_non_2xx_http_error_witness :
    Jina.handle_response Usage.fromJson 429 (some (Json.obj [("detail", Json.str "rate limited")])) =
      Outcome.err (JinaError.HttpError
        { status := 429, payload := some (HttpErrorPayload.mk (Json.obj [("detail", Json.str "rate limited")])) }) ∧
    Jina.handle_response Usage.fromJson 502 none =
      Outcome.err (JinaError.HttpError { status := 502, payload := none }) :=
  ⟨(handle_response_non_2xx_http_error Usage.fromJson 429
      (some (Json.obj [("detail", Json.str "rate limited")])) (by decide)).1,
   (handle_response_non_2xx_http_error Usage.fromJson 502 none (by decide)).1⟩

/-- C3: when no api key was supplied and the environment fallback is
absent, `JinaBuilder::build` returns an error; `build` is a pure function
of the builder and the environment, so the failure happens at
construction time, before any network request. -/
theorem build_missing_api_key_fails (b : JinaBuilder) (env : String → Option String)
    (h1 : b.api_key = none) (h2 : env "EXA_API_KEY" = none) :
    ∃ msg, b.build env = Except.error msg := by
  cases hc : b.http_client with
  | none =>
    refine ⟨"you must provide an HttpClient implementation", ?_⟩
    unfold JinaBuilder.build
    rw [hc]
  | some u =>
    refine ⟨"API key is required. Set it explicitly or use the EXA_API_KEY environment variable", ?_⟩
    unfold JinaBuilder.build
    rw [hc]
    simp [h1, h2, Option.orElse]

/-- Witness for C3: a builder with a transport but no api key, in an
empty environment, fails to build. -/
theorem build_missing_api_key_fails_witness :
    ∃ msg, JinaBuilder.build { http_client := some (), api_key := none, base_url := none }
      (fun _ => none) = Except.error msg :=
  build_missing_api_key_fails
    { http_client := some (), api_key := none, base_url := none } (fun _ => none) rfl rfl

/-- C7: serde serialization of every `RerankRequest` fails outright with
serde's flatten error, because `query` and `documents` are
`#[serde(flatten)]` fields whose untagged variants serialize as a JSON
string or array, which cannot be flattened. No request body is ever
produced, so the claimed `top_n` omission behaviour is unreachable; this
contradicts the crate's own `test_rerank` and documents the code bug. -/
theorem rerank_request_serialization_always_fails (r : RerankRequest) :
    RerankRequest.toJson r = Except.error "can only flatten structs and maps" := by
  rcases r with ⟨m, q, d, t, rd⟩
  cases q <;> cases d <;> rfl

/-- C8 counterexample: deserializing a JSON body with a negative
`prompt_tokens` succeeds and hands the caller a `Usage` with a negative
token count, refuting the claimed non-negativity invariant. -/
theorem usage_negative_decodes :
    Usage.fromJson (Json.obj [("prompt_tokens", Json.num (-5)), ("total_tokens", Json.num 7)]) =
      some { prompt_tokens := -5, total_tokens := 7 } ∧ (-5 : Int) < 0 :=
  ⟨rfl, by decide⟩

/-- C8 (amended): `Usage` deserialization enforces only the signed 32-bit
range of the `i32` fields, not non-negativity: any in-range integers,
negative ones included, decode successfully and are passed through
unchanged. -/
theorem usage_decode_range (p t : Int)
    (h1 : -(2 ^ 31) ≤ p) (h2 : p < 2 ^ 31) (h3 : -(2 ^ 31) ≤ t) (h4 : t < 2 ^ 31) :
    Usage.fromJson (Json.obj [("prompt_tokens", Json.num p), ("total_tokens", Json.num t)]) =
      some { prompt_tokens := p, total_tokens := t } := by
  norm_num at h1 h2 h3 h4
  simp [Usage.fromJson, lookupField, decodeI32, h1, h2, h3, h4]

/-- Witness for C8 (amended): in-range values, one negative, decode and
are passed through. -/
theorem usage_decode_range_witness :
    Usage.fromJson (Json.obj [("prompt_tokens", Json.num (-5)), ("total_tokens", Json.num 3)]) =
      some { prompt_tokens := -5, total_tokens := 3 } :=
  usage_decode_range (-5) 3 (by decide) (by decide) (by decide) (by decide)

/-- C9: for every lowercasing function `low` that fixes the six
(already-lowercase ASCII) names — as Rust's Unicode `str::to_lowercase`
does — `as_str` followed by `try_from` round-trips every
`ReaderReturnFormat`; `try_from` is case-insensitive: any string whose
lowercasing is one of the six names (any casing of a name, Unicode case
mappings included, since `low` is arbitrary) parses to the corresponding
variant; and every string whose lowercasing is not one of the six names
is rejected with an error. -/
theorem return_format_tryfrom_spec (low : String → String)
    (hfix : ∀ v : ReaderReturnFormat, low v.asStr = v.asStr) :
    (∀ v : ReaderReturnFormat, ReaderReturnFormat.tryFrom low v.asStr = Except.ok v) ∧
    (∀ (s : String) (v : ReaderReturnFormat), low s = v.asStr →
      ReaderReturnFormat.tryFrom low s = Except.ok v) ∧
    (∀ s : String, (∀ v : ReaderReturnFormat, low s ≠ v.asStr) →
      ReaderReturnFormat.tryFrom low s = Except.error ("Invalid ReaderReturnFormat: " ++ s)) := by
  have hb : ∀ (s : String) (v : ReaderReturnFormat), low s = v.asStr →
      ReaderReturnFormat.tryFrom low s = Except.ok v := by
    intro s v h
    cases v <;> simp [ReaderReturnFormat.tryFrom, ReaderReturnFormat.asStr] at h ⊢ <;> simp [h]
  refine ⟨?_, hb, ?_⟩
  · intro v
    exact hb v.asStr v (hfix v)
  · intro s h
    unfold ReaderReturnFormat.tryFrom
    rw [if_neg (show ¬ low s = "default" from h ReaderReturnFormat.Default),
      if_neg (show ¬ low s = "markdown" from h ReaderReturnFormat.Markdown),
      if_neg (show ¬ low s = "html" from h ReaderReturnFormat.Html),
      if_neg (show ¬ low s = "text" from h ReaderReturnFormat.Text),
      if_neg (show ¬ low s = "screenshot" from h ReaderReturnFormat.Screenshot),
      if_neg (show ¬ low s = "pageshot" from h ReaderReturnFormat.Pageshot)]

/-- Witness for C9: under a concrete lowercasing function agreeing with
`str::to_lowercase` on the inputs used (it fixes the six names and maps
"MarkDown" to "markdown"), the mixed-case "MarkDown" parses to Markdown
and the unknown string "bogus" is rejected. -/
theorem return_format_tryfrom_spec_witness :
    ReaderReturnFormat.tryFrom (fun s => if s = "MarkDown" then "markdown" else s) "MarkDown" =
      Except.ok ReaderReturnFormat.Markdown ∧
    ReaderReturnFormat.tryFrom (fun s => if s = "MarkDown" then "markdown" else s) "bogus" =
      Except.error ("Invalid ReaderReturnFormat: " ++ "bogus") :=
  ⟨(return_format_tryfrom_spec (fun s => if s = "MarkDown" then "markdown" else s)
      (fun v => by cases v <;> decide)).2.1 "MarkDown" ReaderReturnFormat.Markdown (by decide),
   (return_format_tryfrom_spec (fun s => if s = "MarkDown" then "markdown" else s)
      (fun v => by cases v <;> decide)).2.2 "bogus" (fun v => by cases v <;> decide)⟩

/-- C10: with a header-legal api key, `default_headers` returns exactly
the Authorization (Bearer) and Content-Type headers; with an api key
containing an illegal character it panics (the `expect` branch) rather
than returning an error. -/
theorem default_headers_spec (c : Jina) :
    (isValidHeaderValue c.api_key = true → c.default_headers = Outcome.ok
      [("Authorization", "Bearer " ++ c.api_key), ("Content-Type", "application/json")]) ∧
    (isValidHeaderValue c.api_key = false →
      c.default_headers = Outcome.panic "couldn't create header value") := by
  constructor
  · intro h
    exact default_headers_of_valid c h
  · intro h
    unfold Jina.default_headers
    rw [show mkHeaderValue ("Bearer " ++ c.api_key) = none from by
      unfold mkHeaderValue
      rw [bearer_valid, h]
      rfl]

/-- Witness for C10: a plain api key yields exactly the two headers; an
api key containing a newline panics. -/
theorem default_headers_spec_witness :
    Jina.default_headers { http_client := (), api_key := "abc", base_url := BASE_URL } =
      Outcome.ok [("Authorization", "Bearer abc"), ("Content-Type", "application/json")] ∧
    Jina.default_headers { http_client := (), api_key := "a\nb", base_url := BASE_URL } =
      Outcome.panic "couldn't create header value" :=
  ⟨(default_headers_spec { http_client := (), api_key := "abc", base_url := BASE_URL }).1 (by decide),
   (default_headers_spec { http_client := (), api_key := "a\nb", base_url := BASE_URL }).2 (by decide)⟩

/-- C4: whenever `Jina::reader` sends a request, the JSON body contains
exactly the one field "url" with the request's url, and each of the seven
optional fields contributes its distinct `X-*` header if and only if that
field is set. -/
theorem reader_body_and_headers (c : Jina) (r : ReaderRequest) (hs : List Header) (body : Json)
    (h : c.reader r = Outcome.ok (hs, body)) :
    body = Json.obj [("url", Json.str r.url)] ∧
    (hasHdr hs "X-Return-Format" ↔ r.return_format.isSome = true) ∧
    (hasHdr hs "X-Target-Selector" ↔ r.target_selector.isSome = true) ∧
    (hasHdr hs "X-Locale" ↔ r.locale.isSome = true) ∧
    (hasHdr hs "X-Proxy-Url" ↔ r.proxy_url.isSome = true) ∧
    (hasHdr hs "X-Timeout" ↔ r.timeout.isSome = true) ∧
    (hasHdr hs "X-No-Cache" ↔ r.no_cache.isSome = true) ∧
    (hasHdr hs "X-Wait-For-Selector" ↔ r.wait_for_selector.isSome = true) := by
  have hout := reader_ok_inv c r (hs, body) h
  rw [Prod.mk.injEq] at hout
  obtain ⟨hh, hb⟩ := hout
  subst hh
  subst hb
  refine ⟨rfl, ?_, ?_, ?_, ?_, ?_, ?_, ?_⟩ <;>
    simp [readerOptHeaders, hasHdr_append, hasHdr_cons, hasHdr_nil, hasHdr_optHdr_self,
      hasHdr_optHdr_ne, Option.isSome_map]

/-- Witness for C4: a request with four optional fields set produces the
url-only body and exactly the corresponding `X-*` headers. -/
theorem reader_body_and_headers_witness :
    Json.obj [("url", Json.str "https://u")] = Json.obj [("url", Json.str readerSample.url)] ∧
    (hasHdr readerSampleHeaders "X-Return-Format" ↔ readerSample.return_format.isSome = true) ∧
    (hasHdr readerSampleHeaders "X-Target-Selector" ↔ readerSample.target_selector.isSome = true) ∧
    (hasHdr readerSampleHeaders "X-Locale" ↔ readerSample.locale.isSome = true) ∧
    (hasHdr readerSampleHeaders "X-Proxy-Url" ↔ readerSample.proxy_url.isSome = true) ∧
    (hasHdr readerSampleHeaders "X-Timeout" ↔ readerSample.timeout.isSome = true) ∧
    (hasHdr readerSampleHeaders "X-No-Cache" ↔ readerSample.no_cache.isSome = true) ∧
    (hasHdr readerSampleHeaders "X-Wait-For-Selector" ↔ readerSample.wait_for_selector.isSome = true) :=
  reader_body_and_headers { http_client := (), api_key := "k", base_url := BASE_URL }
    readerSample readerSampleHeaders (Json.obj [("url", Json.str "https://u")]) rfl

/-- C5 counterexample: a `url` containing a control character (newline)
does NOT produce a request-construction error: `url` is never inserted as
a header, only JSON-encoded into the body, so the request is sent.  This
refutes the claim for the `url` field. -/
theorem reader_ctrl_url_sent_ok :
    Jina.reader { http_client := (), api_key := "k", base_url := BASE_URL }
      { url := "http://e.com/\n", return_format := none, no_cache := none,
        wait_for_selector := none, target_selector := none, timeout := none,
        proxy_url := none, locale := none } =
      Outcome.ok ([("Authorization", "Bearer k"), ("Content-Type", "application/json"),
        ("Accept", "application/json")], Json.obj [("url", Json.str "http://e.com/\n")]) := rfl

/-- C5 (amended): with a header-legal api key, the reader call succeeds
(a request is sent) iff every SET free-form field that is sent as a
header (target_selector, locale, proxy_url, wait_for_selector) is legal
header content; an illegal value in one of them yields a
request-construction error before any request is sent.  The fields whose
types guarantee a header-safe rendering (timeout, no_cache,
return_format) and the `url` field (body-only, never header-validated)
cannot cause a failure. -/
theorem reader_free_form_validation (c : Jina) (r : ReaderRequest)
    (hk : isValidHeaderValue c.api_key = true) :
    (∃ out, c.reader r = Outcome.ok out) ↔
      (optValid r.target_selector ∧ optValid r.locale ∧ optValid r.proxy_url ∧
        optValid r.wait_for_selector) := by
  constructor
  · rintro ⟨out, h⟩
    obtain ⟨hs0, hb⟩ := reader_ok_build_ok c r out h
    exact reader_build_ok_valids r hs0 out hb
  · rintro ⟨h1, h2, h3, h4⟩
    refine ⟨([("Authorization", "Bearer " ++ c.api_key), ("Content-Type", "application/json"),
      ("Accept", "application/json")] ++ readerOptHeaders r,
      Json.obj [("url", Json.str r.url)]), ?_⟩
    unfold Jina.reader
    simp only [default_headers_of_valid c hk,
      show mkHeaderValue "application/json" = some "application/json" from rfl,
      reader_build_eq_ok r _ h1 h2 h3 h4]
    rfl

/-- Witness for C5 (amended): with a legal api key and no free-form
header fields set, the reader call sends a request. -/
theorem reader_free_form_validation_witness :
    ∃ out, Jina.reader { http_client := (), api_key := "k", base_url := BASE_URL }
      { url := "https://u", return_format := none, no_cache := none,
        wait_for_selector := none, target_selector := none, timeout := none,
        proxy_url := none, locale := none } = Outcome.ok out :=
  (reader_free_form_validation { http_client := (), api_key := "k", base_url := BASE_URL }
    { url := "https://u", return_format := none, no_cache := none,
      wait_for_selector := none, target_selector := none, timeout := none,
      proxy_url := none, locale := none } (by decide)).mpr
    (by refine ⟨?_, ?_, ?_, ?_⟩ <;> intro s hs <;> simp at hs)

/-- C6 counterexample: an empty `DocArray` serializes to the empty JSON
array, which the structural (untagged) decoding reads back as an empty
`StringArray`: the discriminating variant is NOT recovered. -/
theorem embeddings_input_empty_docarray_misdecodes :
    EmbeddingsInput.fromJson (EmbeddingsInput.toJson (EmbeddingsInput.DocArray [])) =
      some (EmbeddingsInput.StringArray []) ∧
    EmbeddingsInput.fromJson (EmbeddingsInput.toJson (EmbeddingsInput.DocArray [])) ≠
      some (EmbeddingsInput.DocArray []) := by
  constructor
  · rfl
  · intro h
    rw [show EmbeddingsInput.fromJson (EmbeddingsInput.toJson (EmbeddingsInput.DocArray [])) =
      some (EmbeddingsInput.StringArray []) from rfl] at h
    injection h with h2
    exact EmbeddingsInput.noConfusion h2

/-- C6 (amended): for every `EmbeddingsInput` except the empty
`DocArray` (whose wire shape `[]` is structurally ambiguous with the
empty `StringArray`), serializing and then decoding by the vendor's
structural shapes recovers exactly the original variant; the encoding
carries no discriminant tag (`EmbeddingsInput.toJson` emits the variant's
data directly and `EmbeddingsInput.fromJson` inspects only the structural
shape). -/
theorem embeddings_input_roundtrip (i : EmbeddingsInput)
    (h : i ≠ EmbeddingsInput.DocArray []) :
    EmbeddingsInput.fromJson (EmbeddingsInput.toJson i) = some i := by
  cases i with
  | StringArray xs =>
    simp [EmbeddingsInput.toJson, EmbeddingsInput.fromJson, decodeStringList,
      decodeList_roundtrip Json.str decodeString (fun s => rfl) xs]
  | String s => rfl
  | DocArray ds =>
    cases ds with
    | nil => exact absurd rfl h
    | cons d rest =>
      have hsl : decodeStringList (Json.arr (Doc.toJson d :: List.map Doc.toJson rest)) = none := by
        simp only [decodeStringList, decodeList, decodeString_doc d]
      have hdl : decodeDocList (Json.arr (Doc.toJson d :: List.map Doc.toJson rest)) =
          some (d :: rest) := by
        have hrt := decodeList_roundtrip Doc.toJson Doc.fromJson doc_roundtrip (d :: rest)
        simpa [decodeDocList] using hrt
      simp [EmbeddingsInput.toJson, EmbeddingsInput.fromJson, hsl, hdl, decodeString]
  | Doc d =>
    cases d with
    | Text t => rfl
    | Image im => rfl

/-- Witness for C6 (amended): a single text document round-trips to the
same variant. -/
theorem embeddings_input_roundtrip_witness :
    EmbeddingsInput.fromJson (EmbeddingsInput.toJson
      (EmbeddingsInput.Doc (Doc.Text (TextDoc.mk "hi")))) =
      some (EmbeddingsInput.Doc (Doc.Text (TextDoc.mk "hi"))) :=
  embeddings_input_roundtrip (EmbeddingsInput.Doc (Doc.Text (TextDoc.mk "hi")))
    (fun h => EmbeddingsInput.noConfusion h)
